import Mathlib

/-!
# Verification of the microkit SDK build script (`build_sdk.py`)

This development embeds the orchestration, staging and packaging core of
`build_sdk.py` (the single source file of the repository) as executable Lean
definitions, and settles the specification claims against it.

Modelling conventions (a shallow embedding of the Python script):

* Python `dict`s (`kernel_options`, `examples`) are association lists in
  insertion order; `dict.items()` is the identity on that list.
* `os.system` is modelled by an exit-code oracle `sys : String → Int`; every
  call appends a `run` effect carrying the exact command string.
* `shutil.copy`, `Path.chmod`, `Path.unlink(missing_ok=True)` and
  `Path.mkdir(exist_ok=True, parents=True)` become `copy`/`chmod`/`unlink`/
  `mkdir` effects recorded in a trace; a raised exception is an `Option String`
  error alongside the trace.
* `Path.rglob("*")` filtered by `is_file()` is modelled by an oracle
  `fs : String → List String` returning the relative paths of the regular
  files found under a directory, in traversal order.
* `Path.absolute()` is modelled as the identity (command strings keep the
  paths as constructed); `sys.executable` and the pyoxidizer binary path are
  opaque constants.
* `sorted` on `(name, value)` pairs is Python's stable sort under the
  lexicographic tuple order; it is modelled as a stable insertion sort with
  the same strict order.  (Python compares a `bool` with a `str` only when two
  pairs share a key with differently-typed values, and would raise `TypeError`
  there; the model totalises that case by putting booleans first.  It is never
  reached in the shipped catalog, whose option names are distinct per pair
  list; every theorem that quantifies over option maps and talks about the
  merged list is guarded by the `type_safe_args` hypothesis, which confines
  it to the inputs on which Python's sort returns, and
  `sorted_config_args_totalisation_independent` shows the result does not
  depend on the totalisation there.)
-/

namespace Microkit

/-! ## Constants of the script -/

def NAME : String := "microkit"

def VERSION : String := "1.2.6"

def MICROKIT_EPOCH : Nat := 1616367257

def TOOLCHAIN_PREFIX : String := "aarch64-none-elf-"

/-- Model of `sys.executable` (host dependent; opaque constant). -/
def PYEXE : String := "python3"

/-- Model of `ENV_BIN_DIR = Path(executable).parent` (host dependent; opaque). -/
def ENV_BIN_DIR : String := "envbin"

/-! ## Data model: the target catalog -/

/-- A kernel configuration option value: `Union[bool, str]`. -/
inductive KVal where
  | b (v : Bool)
  | s (v : String)
deriving DecidableEq

structure BoardInfo where
  name : String
  gcc_cpu : String
  loader_link_address : Nat
  kernel_options : List (String × KVal)
  examples : List (String × String)
deriving DecidableEq

structure ConfigInfo where
  name : String
  debug : Bool
  kernel_options : List (String × KVal)
deriving DecidableEq

def SUPPORTED_BOARDS : List BoardInfo := [
  { name := "tqma8xqp1gb", gcc_cpu := "cortex-a35", loader_link_address := 0x80280000,
    kernel_options := [("KernelPlatform", .s "tqma8xqp1gb"), ("KernelIsMCS", .b true),
                       ("KernelArmExportPCNTUser", .b true)],
    examples := [("ethernet", "example/tqma8xqp1gb/ethernet")] },
  { name := "zcu102", gcc_cpu := "cortex-a53", loader_link_address := 0x40000000,
    kernel_options := [("KernelPlatform", .s "zynqmp"), ("KernelARMPlatform", .s "zcu102"),
                       ("KernelIsMCS", .b true), ("KernelArmExportPCNTUser", .b true)],
    examples := [("hello", "example/zcu102/hello")] },
  { name := "maaxboard", gcc_cpu := "cortex-a53", loader_link_address := 0x40480000,
    kernel_options := [("KernelPlatform", .s "maaxboard"), ("KernelIsMCS", .b true),
                       ("KernelArmExportPCNTUser", .b true)],
    examples := [("hello", "example/maaxboard/hello")] },
  { name := "imx8mm_evk", gcc_cpu := "cortex-a53", loader_link_address := 0x41000000,
    kernel_options := [("KernelPlatform", .s "imx8mm-evk"), ("KernelIsMCS", .b true),
                       ("KernelArmExportPCNTUser", .b true)],
    examples := [("passive_server", "example/imx8mm_evk/passive_server")] },
  { name := "imx8mq_evk", gcc_cpu := "cortex-a53", loader_link_address := 0x41000000,
    kernel_options := [("KernelPlatform", .s "imx8mq-evk"), ("KernelIsMCS", .b true),
                       ("KernelArmExportPCNTUser", .b true)],
    examples := [("hello", "example/imx8mq_evk/hello")] },
  { name := "odroidc2", gcc_cpu := "cortex-a53", loader_link_address := 0x20000000,
    kernel_options := [("KernelPlatform", .s "odroidc2"), ("KernelIsMCS", .b true),
                       ("KernelArmExportPCNTUser", .b true)],
    examples := [("hello", "example/odroidc2/hello")] },
  { name := "odroidc4", gcc_cpu := "cortex-a55", loader_link_address := 0x20000000,
    kernel_options := [("KernelPlatform", .s "odroidc4"), ("KernelIsMCS", .b true),
                       ("KernelArmExportPCNTUser", .b true)],
    examples := [("timer", "example/odroidc4/timer")] },
  { name := "qemu_virt_aarch64", gcc_cpu := "cortex-a53", loader_link_address := 0x70000000,
    kernel_options := [("KernelPlatform", .s "qemu-arm-virt"), ("KernelIsMCS", .b true),
                       ("KernelArmExportPCNTUser", .b true), ("QEMU_MEMORY", .s "2048")],
    examples := [("hello", "example/qemu_virt_aarch64/hello")] }
]

def SUPPORTED_CONFIGS : List ConfigInfo := [
  { name := "release", debug := false, kernel_options := [] },
  { name := "debug", debug := true,
    kernel_options := [("KernelDebugBuild", .b true), ("KernelPrinting", .b true),
                       ("KernelVerificationBuild", .b false)] }
]

/-! ## Python `sorted` on `(option-name, value)` tuples -/

/-- Code-point comparison of characters (Python string comparison is
code-point-wise lexicographic). -/
def chLT (a b : Char) : Bool := a.toNat < b.toNat

/-- Lexicographic strict order on character lists. -/
def strDataLT : List Char → List Char → Bool
  | [], [] => false
  | [], _ :: _ => true
  | _ :: _, [] => false
  | a :: as, b :: bs => chLT a b || (a == b && strDataLT as bs)

/-- Python `<` on strings. -/
def pyStrLT (a b : String) : Bool := strDataLT a.data b.data

/-- Python `<` on option values.  Bool: `False < True`; str: lexicographic.
A cross-type comparison raises `TypeError` in Python; the model totalises it
(booleans sort first).  Tuple comparison reaches the value comparison only
when the two pairs share a name, so the totalised branch is unreachable
whenever every shared name carries same-typed values; the `type_safe_args`
hypothesis below confines every theorem that quantifies over option maps to
that domain, and `sorted_config_args_totalisation_independent` proves the
sorted merge does not depend on the totalisation there. -/
def kvalLT : KVal → KVal → Bool
  | .b x, .b y => !x && y
  | .s x, .s y => pyStrLT x y
  | .b _, .s _ => true
  | .s _, .b _ => false

/-- Python `<` on `(name, value)` tuples: lexicographic. -/
def pairLT (p q : String × KVal) : Bool :=
  pyStrLT p.1 q.1 || (p.1 == q.1 && kvalLT p.2 q.2)

/-- The (decidable) non-strict order fed to the stable sort:
`p` may stay before `q` iff `q` is not strictly below `p`. -/
def pairOrder (p q : String × KVal) : Prop := pairLT q p = false

instance : DecidableRel pairOrder := fun p q =>
  inferInstanceAs (Decidable (pairLT q p = false))

/-- Whether two option values have the same Python type (both `bool` or both
`str`).  Python compares the values of two pairs only when the pairs share a
name, and raises `TypeError` if those values are of mixed types. -/
def sameKind : KVal → KVal → Bool
  | .b _, .b _ => true
  | .s _, .s _ => true
  | _, _ => false

/-- The domain on which the total model of Python's `sorted` is faithful:
any two pairs sharing a name carry same-typed values, so every value
comparison the sort could make is well-typed and no `TypeError` can occur.
Outside this domain `build_sel4` crashes with a `TypeError` inside `sorted`
before running any external command, and no merged list exists. -/
def type_safe_args (l : List (String × KVal)) : Prop :=
  ∀ p ∈ l, ∀ q ∈ l, p.1 = q.1 → sameKind p.2 q.2 = true

instance (l : List (String × KVal)) : Decidable (type_safe_args l) :=
  inferInstanceAs (Decidable (∀ p ∈ l, ∀ q ∈ l, p.1 = q.1 → sameKind p.2 q.2 = true))

/-- Python tuple `<` with an arbitrary order in place of `kvalLT` on the
values, used to show the sorted merge is independent of how the model
totalises the cross-type value comparison. -/
def pairLTWith (vlt : KVal → KVal → Bool) (p q : String × KVal) : Bool :=
  pyStrLT p.1 q.1 || (p.1 == q.1 && vlt p.2 q.2)

def pairOrderWith (vlt : KVal → KVal → Bool) (p q : String × KVal) : Prop :=
  pairLTWith vlt q p = false

instance (vlt : KVal → KVal → Bool) : DecidableRel (pairOrderWith vlt) := fun p q =>
  inferInstanceAs (Decidable (pairLTWith vlt q p = false))

/-! ## The option merge of `build_sel4` (source lines 270-279) -/

/-- Source: `config_args = list(board.kernel_options.items()) + list(config.kernel_options.items())` -/
def config_args (board : BoardInfo) (config : ConfigInfo) : List (String × KVal) :=
  board.kernel_options ++ config.kernel_options

/-- Source: `sorted(config_args)` — Python's stable sort, modelled as a stable
insertion sort with the same order. -/
def sorted_config_args (board : BoardInfo) (config : ConfigInfo) : List (String × KVal) :=
  List.insertionSort pairOrder (config_args board config)

/-- Rendering of one option value: `"ON" if val else "OFF"` for booleans,
`str(val)` for strings. -/
def renderVal : KVal → String
  | .b true => "ON"
  | .b false => "OFF"
  | .s v => v

/-- The list of `-D<arg>=<val>` flags built in the loop of `build_sel4`. -/
def config_strs (board : BoardInfo) (config : ConfigInfo) : List String :=
  (sorted_config_args board config).map (fun p => "-D" ++ p.1 ++ "=" ++ renderVal p.2)

/-- Source: `config_str = " ".join(config_strs)` -/
def config_str (board : BoardInfo) (config : ConfigInfo) : String :=
  String.intercalate " " (config_strs board config)

/-! ## `tar_filter` (source lines 184-205) -/

/-- Tar entry kinds.  `reg`/`dir` are the accepted ones; the others are the
remaining `tarfile` type flags (symlink, hard link, character device, block
device, fifo). -/
inductive TypeFlag where
  | reg
  | dir
  | sym
  | lnk
  | chr
  | blk
  | fifo
deriving DecidableEq

/-- The `TarInfo` fields touched or preserved by `tar_filter`. -/
structure TarEntry where
  name : String
  typeflag : TypeFlag
  mode : Nat
  uid : Nat
  gid : Nat
  uname : String
  gname : String
  pax_headers : List (String × String)
  mtime : Nat
  size : Nat
deriving DecidableEq

def TarEntry.isfile (t : TarEntry) : Bool := t.typeflag == .reg

def TarEntry.isdir (t : TarEntry) : Bool := t.typeflag == .dir

/-- Substring test, `sub in s` in Python (character-level). -/
def prefixOfL : List Char → List Char → Bool
  | [], _ => true
  | _ :: _, [] => false
  | a :: as, b :: bs => a == b && prefixOfL as bs

def infixOfL (sub : List Char) : List Char → Bool
  | [] => prefixOfL sub []
  | b :: bs => prefixOfL sub (b :: bs) || infixOfL sub bs

def containsSub (sub s : String) : Bool := infixOfL sub.data s.data

/-- Model of `mode & ~0o777 | add` for a non-negative Python int: the low nine
permission bits are cleared (`mode - mode % 0o1000`) and `add` (below
`0o1000`) is or-ed, i.e. added, in. -/
def permClearSet (mode add : Nat) : Nat := mode - mode % 0o1000 + add

/-- Function `tar_filter`: normalises entry metadata before the entry is written to the
archive.  The `assert tarinfo.isfile() or tarinfo.isdir()` is modelled by
returning `none` (a raised `AssertionError`) on any other entry kind. -/
def tar_filter (t : TarEntry) : Option TarEntry :=
  let t1 : TarEntry :=
    { t with uid := 0, gid := 0, uname := "microkit", gname := "microkit",
             pax_headers := [], mtime := MICROKIT_EPOCH }
  if t1.isfile || t1.isdir then
    let t2 := if t1.isdir then { t1 with mode := permClearSet t1.mode 0o557 } else t1
    let t3 :=
      if t2.isfile then
        if containsSub "/bin/" t2.name then { t2 with mode := permClearSet t2.mode 0o755 }
        else { t2 with mode := permClearSet t2.mode 0o644 }
      else t2
    some t3
  else
    none

/-! ## `get_tool_target_triple` (source lines 208-221) -/

/-- Function `get_tool_target_triple`, with `platform.system()` and
`platform.machine()` as parameters of the model. -/
def get_tool_target_triple (host_system host_machine : String) : Except String String :=
  if host_system = "Linux" then
    .ok "x86_64-unknown-linux-musl"
  else if host_system = "Darwin" then
    if host_machine = "x86_64" then
      .ok "x86_64-apple-darwin"
    else if host_machine = "arm64" then
      .ok "aarch64-apple-darwin"
    else
      .error ("Unexpected Darwin architecture: " ++ host_machine)
  else
    .error ("The platform \"" ++ host_system ++ "\" is not supported")

/-! ## Filesystem / subprocess effects

The script's side effects are recorded in a trace.  `createArchive` is the
effect a `tarfile.open(...).add(...)` call would emit; the faithful
translation of `main` below never emits it (the `tarfile` import and
`tar_filter` are dead code in the source). -/

inductive Effect where
  | run (cmd : String)
  | copy (src dest : String)
  | chmod (path : String) (mode : Nat)
  | unlink (path : String)
  | mkdir (path : String)
  | createArchive (path : String)
deriving DecidableEq

/-- The result of a script fragment: its effect trace, and the message of the
exception it raised, if any. -/
abbrev Res := List Effect × Option String

/-- Sequencing with Python exception semantics: if the first fragment raised,
the second never runs. -/
def andThen (a : Res) (k : Unit → Res) : Res :=
  match a.2 with
  | some e => (a.1, some e)
  | none => ((a.1 ++ (k ()).1), (k ()).2)

/-- The staging pattern the source repeats for every release-tree file:
`dest.unlink(missing_ok=True); copy(src, dest); dest.chmod(0o444)`. -/
def stage_file (src dest : String) : List Effect :=
  [.unlink dest, .copy src dest, .chmod dest 0o444]

/-- Model of `Path.parent`, on `/`-separated path strings. -/
def parentDir (p : String) : String :=
  String.intercalate "/" ((p.splitOn "/").dropLast)

/-- Concatenation of the per-element effect lists of a loop body. -/
def cmap (f : α → List Effect) : List α → List Effect
  | [] => []
  | x :: xs => f x ++ cmap f xs

/-- The recursive-copy loop the source repeats for header trees, licenses and
examples: for every regular file `rel` under `source_dir`,
`dest.parent.mkdir(...); dest.unlink(...); copy(p, dest); dest.chmod(0o444)`. -/
def copy_tree (fs : String → List String) (source_dir dest_root : String) : List Effect :=
  cmap (fun rel =>
    let dest := dest_root ++ "/" ++ rel
    .mkdir (parentDir dest) :: stage_file (source_dir ++ "/" ++ rel) dest) (fs source_dir)

/-- Python `hex(n)`: `0x` followed by the lowercase base-16 digits. -/
def hexStr (n : Nat) : String := "0x" ++ String.mk (Nat.toDigits 16 n)

/-! ## Paths of one matrix cell -/

/-- Path `root_dir / "board" / board.name / config.name` — the cell's subtree of
the release tree (also passed to components as `SEL4_SDK`). -/
def cell_dir (root_dir : String) (board : BoardInfo) (config : ConfigInfo) : String :=
  root_dir ++ "/board/" ++ board.name ++ "/" ++ config.name

/-- Path `build_dir / board.name / config.name / component` — the stage-local
ephemeral build directory. -/
def comp_build_dir (build_dir : String) (board : BoardInfo) (config : ConfigInfo)
    (comp : String) : String :=
  build_dir ++ "/" ++ board.name ++ "/" ++ config.name ++ "/" ++ comp

/-! ## `build_sel4` (source lines 251-322) -/

def sel4_configure_cmd (sel4_dir build_dir : String) (board : BoardInfo)
    (config : ConfigInfo) : String :=
  let bdir := comp_build_dir build_dir board config "sel4"
  "cmake -GNinja -DCMAKE_INSTALL_PREFIX=" ++ (bdir ++ "/install") ++
    "  -DPYTHON3=" ++ PYEXE ++ "  -DCROSS_COMPILER_PREFIX=" ++ TOOLCHAIN_PREFIX ++
    " " ++ config_str board config ++ " -S " ++ sel4_dir ++ " -B " ++ (bdir ++ "/build")

def sel4_build_cmd (build_dir : String) (board : BoardInfo) (config : ConfigInfo) : String :=
  "cmake --build " ++ (comp_build_dir build_dir board config "sel4" ++ "/build")

def sel4_install_cmd (build_dir : String) (board : BoardInfo) (config : ConfigInfo) : String :=
  "cmake --install " ++ (comp_build_dir build_dir board config "sel4" ++ "/build")

/-- The four header sources installed by seL4 whose `include` trees are staged. -/
def sel4_header_sources : List String :=
  ["kernel_Config", "libsel4", "libsel4/sel4_Config", "libsel4/autoconf"]

def build_sel4 (sys : String → Int) (fs : String → List String)
    (sel4_dir root_dir build_dir : String) (board : BoardInfo) (config : ConfigInfo) : Res :=
  let bdir := comp_build_dir build_dir board config "sel4"
  let sel4_install_dir := bdir ++ "/install"
  let pre : List Effect := [.mkdir bdir, .mkdir sel4_install_dir, .mkdir (bdir ++ "/build")]
  let c1 := sel4_configure_cmd sel4_dir build_dir board config
  if sys c1 ≠ 0 then
    (pre ++ [.run c1], some ("Error configuring sel4: cmd=" ++ c1))
  else
    let c2 := sel4_build_cmd build_dir board config
    if sys c2 ≠ 0 then
      (pre ++ [.run c1, .run c2], some ("Error building sel4: cmd=" ++ c2))
    else
      let c3 := sel4_install_cmd build_dir board config
      if sys c3 ≠ 0 then
        (pre ++ [.run c1, .run c2, .run c3], some ("Error installing sel4: cmd=" ++ c3))
      else
        let elf := sel4_install_dir ++ "/bin/kernel.elf"
        let dest := cell_dir root_dir board config ++ "/elf/sel4.elf"
        let include_dir := cell_dir root_dir board config ++ "/include"
        let hdrs := cmap (fun src =>
          copy_tree fs (sel4_install_dir ++ "/" ++ src ++ "/include") include_dir)
          sel4_header_sources
        (pre ++ [.run c1, .run c2, .run c3] ++ stage_file elf dest ++ hdrs, none)

/-! ## `build_elf_component` (source lines 325-355) -/

/-- Source: `" ".join(f"{k}={v}" for k, v in l)` — also the shape of the
`VAR=value ...` environment prefix of the component commands. -/
def renderAssigns (l : List (String × String)) : String :=
  String.intercalate " " (l.map (fun kv => kv.1 ++ "=" ++ kv.2))

/-- The environment assignments at the front of the `build_elf_component`
command: the source writes them in one f-string; they are factored out here
and `elf_cmd` renders them back to the identical string. -/
def elf_env (root_dir build_dir : String) (board : BoardInfo) (config : ConfigInfo)
    (comp : String) : List (String × String) :=
  [("BOARD", board.name),
   ("BUILD_DIR", comp_build_dir build_dir board config comp),
   ("GCC_CPU", board.gcc_cpu),
   ("SEL4_SDK", cell_dir root_dir board config)]

def elf_cmd (comp root_dir build_dir : String) (board : BoardInfo) (config : ConfigInfo)
    (defines : List (String × String)) : String :=
  renderAssigns (elf_env root_dir build_dir board config comp) ++ " " ++
    renderAssigns defines ++ " make  -C " ++ comp

def build_elf_component (sys : String → Int) (comp root_dir build_dir : String)
    (board : BoardInfo) (config : ConfigInfo) (defines : List (String × String)) : Res :=
  let bdir := comp_build_dir build_dir board config comp
  let cmd := elf_cmd comp root_dir build_dir board config defines
  if sys cmd ≠ 0 then
    ([.mkdir bdir, .run cmd],
     some ("Error building: " ++ comp ++ " for board: " ++ board.name ++
           " config: " ++ config.name))
  else
    let elf := bdir ++ "/" ++ comp ++ ".elf"
    let dest := cell_dir root_dir board config ++ "/elf/" ++ comp ++ ".elf"
    ([.mkdir bdir, .run cmd] ++ stage_file elf dest, none)

/-! ## `build_lib_component` (source lines 365-411) -/

/-- The environment assignments of the `build_lib_component` command.  Note:
no `BOARD` variable, unlike `elf_env`. -/
def lib_env (root_dir build_dir : String) (board : BoardInfo) (config : ConfigInfo)
    (comp : String) : List (String × String) :=
  [("BUILD_DIR", comp_build_dir build_dir board config comp),
   ("GCC_CPU", board.gcc_cpu),
   ("SEL4_SDK", cell_dir root_dir board config)]

def lib_cmd (comp root_dir build_dir : String) (board : BoardInfo)
    (config : ConfigInfo) : String :=
  renderAssigns (lib_env root_dir build_dir board config comp) ++ " make -C " ++ comp

def build_lib_component (sys : String → Int) (fs : String → List String)
    (comp root_dir build_dir : String) (board : BoardInfo) (config : ConfigInfo) : Res :=
  let bdir := comp_build_dir build_dir board config comp
  let cmd := lib_cmd comp root_dir build_dir board config
  if sys cmd ≠ 0 then
    ([.mkdir bdir, .run cmd],
     some ("Error building: " ++ comp ++ " for board: " ++ board.name ++
           " config: " ++ config.name))
  else
    let lib_dir := cell_dir root_dir board config ++ "/lib"
    let include_dir := cell_dir root_dir board config ++ "/include"
    ([.mkdir bdir, .run cmd] ++
       stage_file (bdir ++ "/" ++ comp ++ ".a") (lib_dir ++ "/" ++ comp ++ ".a") ++
       stage_file (comp ++ "/microkit.ld") (lib_dir ++ "/microkit.ld") ++
       copy_tree fs (comp ++ "/include") include_dir, none)

/-! ## `build_doc`, `test_tool`, `build_tool` (source lines 224-248, 358-362) -/

def build_doc (sys : String → Int) (root_dir : String) : Res :=
  let cmd := "pandoc docs/manual.md -o " ++ (root_dir ++ "/doc/microkit_user_manual.pdf")
  ([.run cmd], if sys cmd = 0 then none else some "build_doc: pandoc failed")

def test_tool_cmd : String := PYEXE ++ " -m unittest discover -s tool -v"

def test_tool (sys : String → Int) : Res :=
  ([.run test_tool_cmd], if sys test_tool_cmd = 0 then none else some "test_tool failed")

def build_tool (sys : String → Int) (pyoxidizer_present : Bool)
    (tool_target triple : String) : Res :=
  if !pyoxidizer_present then
    ([], some "pyoxidizer does not appear to be installed in your Python environment")
  else
    let buildCmd := ENV_BIN_DIR ++ "/pyoxidizer build --release --path tool --target-triple " ++
      triple
    if sys buildCmd ≠ 0 then
      ([.run buildCmd], some "build_tool: pyoxidizer build failed")
    else
      let tool_output := "./tool/build/" ++ triple ++ "/release/install/microkit"
      let stripCmd := "strip " ++ tool_output
      if sys stripCmd ≠ 0 then
        ([.run buildCmd, .run stripCmd], some "build_tool: strip failed")
      else
        ([.run buildCmd, .run stripCmd, .copy tool_output tool_target,
          .chmod tool_target 0o777], none)

/-! ## `main` (source lines 414-489) -/

def root_dir : String := "release/" ++ NAME ++ "-sdk-" ++ VERSION

/-- Path `tar_file`: computed in `main` and never used afterwards. -/
def tar_file : String := "release/" ++ NAME ++ "-sdk-" ++ VERSION ++ ".tar.gz"

/-- Path `source_tar_file`: computed in `main` and never used afterwards. -/
def source_tar_file : String := "release/" ++ NAME ++ "-source-" ++ VERSION ++ ".tar.gz"

def tool_target : String := root_dir ++ "/bin/microkit"

/-- The `dir_structure` skeleton of the release tree. -/
def dir_structure : List String :=
  [root_dir ++ "/doc", root_dir ++ "/bin", root_dir ++ "/board"] ++
    (SUPPORTED_BOARDS.map (fun board =>
      let board_dir := root_dir ++ "/board/" ++ board.name
      board_dir :: (SUPPORTED_CONFIGS.map (fun config =>
        let config_dir := board_dir ++ "/" ++ config.name
        [config_dir, config_dir ++ "/include", config_dir ++ "/lib",
         config_dir ++ "/elf"])).flatten)).flatten

/-- List `loader_defines` as built in `main`'s matrix loop. -/
def loader_defines (board : BoardInfo) : List (String × String) :=
  [("LINK_ADDRESS", hexStr board.loader_link_address)]

/-- One cell of the matrix: the body of the inner `for config in
SUPPORTED_CONFIGS` loop. -/
def run_cell (sys : String → Int) (fs : String → List String)
    (sel4_dir root build : String) (board : BoardInfo) (config : ConfigInfo) : Res :=
  andThen (build_sel4 sys fs sel4_dir root build board config) fun _ =>
  andThen (build_elf_component sys "loader" root build board config
    (loader_defines board)) fun _ =>
  andThen (build_elf_component sys "monitor" root build board config []) fun _ =>
  build_lib_component sys fs "libmicrokit" root build board config

/-- The inner config loop. -/
def run_configs (sys : String → Int) (fs : String → List String)
    (sel4_dir root build : String) (board : BoardInfo) : List ConfigInfo → Res
  | [] => ([], none)
  | c :: cs =>
    andThen (run_cell sys fs sel4_dir root build board c) fun _ =>
      run_configs sys fs sel4_dir root build board cs

/-- Source comment "Setup the examples": the per-board example-project copy loop. -/
def copy_examples (fs : String → List String) (root : String) (board : BoardInfo) :
    List Effect :=
  cmap (fun ex => copy_tree fs ex.2 (root ++ "/board/" ++ board.name ++ "/example/" ++ ex.1))
    board.examples

/-- The outer board loop (configs, then the board's examples). -/
def run_boards (sys : String → Int) (fs : String → List String)
    (sel4_dir root build : String) : List BoardInfo → Res
  | [] => ([], none)
  | b :: bs =>
    andThen (andThen (run_configs sys fs sel4_dir root build b SUPPORTED_CONFIGS) fun _ =>
      (copy_examples fs root b, none)) fun _ =>
      run_boards sys fs sel4_dir root build bs

/-- The tool build-once step of `main`: skipped when `tool_target` exists. -/
def tool_stage (sys : String → Int) (tool_target_present pyoxidizer_present : Bool)
    (triple : String) : Res :=
  if tool_target_present then ([], none)
  else andThen (test_tool sys) fun _ =>
    build_tool sys pyoxidizer_present tool_target triple

/-- Function `main`, after argument parsing: `sel4_dir_present` models
`args.sel4.exists()`, `tool_target_present` models `tool_target.exists()`,
`pyoxidizer_present` models the pyoxidizer check inside `build_tool`. -/
def mainRun (sys : String → Int) (fs : String → List String)
    (sel4_dir_present tool_target_present pyoxidizer_present : Bool)
    (sel4_dir triple : String) : Res :=
  if !sel4_dir_present then
    ([], some ("sel4_dir: " ++ sel4_dir ++ " does not exist"))
  else
    andThen (dir_structure.map Effect.mkdir ++
      [Effect.copy "LICENSE.md" root_dir] ++
      copy_tree fs "LICENSES" (root_dir ++ "/LICENSES"), none) fun _ =>
    andThen (tool_stage sys tool_target_present pyoxidizer_present triple) fun _ =>
    andThen (build_doc sys root_dir) fun _ =>
    run_boards sys fs sel4_dir root_dir "build" SUPPORTED_BOARDS

/-! ## Concrete oracles for the closed theorems -/

/-- Every external command succeeds. -/
def sysOK : String → Int := fun _ => 0

/-- Every external command fails. -/
def sysBad : String → Int := fun _ => 1

/-- Every scanned directory is empty of regular files. -/
def fsE : String → List String := fun _ => []

/-- A happy-path full run: kernel source present, tool not yet built,
pyoxidizer available, every external command succeeding. -/
def happyRun : Res :=
  mainRun sysOK fsE true false true "sel4src" "x86_64-unknown-linux-musl"

/-! ## Small fixtures used by the closed theorems -/

/-- A minimal board whose option map shares the key `K` with `config0`. -/
def board0 : BoardInfo :=
  { name := "b", gcc_cpu := "c", loader_link_address := 0,
    kernel_options := [("K", .s "a")], examples := [] }

/-- A minimal config whose option map shares the key `K` with `board0`. -/
def config0 : ConfigInfo :=
  { name := "release", debug := false, kernel_options := [("K", .s "b")] }

/-- The board option map of the spec's option-merge test property. -/
def boardC4 : BoardInfo :=
  { name := "zcu102", gcc_cpu := "", loader_link_address := 0,
    kernel_options := [("KernelPlatform", .s "zcu102"), ("KernelIsMCS", .b true)],
    examples := [] }

/-- The config option map of the spec's option-merge test property. -/
def configC4 : ConfigInfo :=
  { name := "", debug := true, kernel_options := [("KernelDebugBuild", .b true)] }

/-! ## Helper lemmas on traces -/

/-- No copy effect occurs anywhere in a trace. -/
def noCopy (tr : List Effect) : Prop := ∀ s d, Effect.copy s d ∉ tr

/-- A destination was staged by the unlink-copy-chmod-0o444 pattern somewhere
in the trace. -/
def Staged (tr : List Effect) (d : String) : Prop :=
  ∃ pre s post,
    tr = pre ++ ([Effect.unlink d, Effect.copy s d, Effect.chmod d 0o444] ++ post)

theorem andThen_of_isSome (a : Res) (k : Unit → Res) (h : a.2.isSome) :
    andThen a k = a := by
  obtain ⟨tr, err⟩ := a
  cases err with
  | none => simp at h
  | some e => simp [andThen]

theorem andThen_fst_of_none (a : Res) (k : Unit → Res) (h : a.2 = none) :
    (andThen a k).1 = a.1 ++ (k ()).1 := by
  simp [andThen, h]

theorem staged_stage_file (s d : String) : Staged (stage_file s d) d :=
  ⟨[], s, [], rfl⟩

theorem Staged.append_left {a : List Effect} {d : String} (h : Staged a d)
    (b : List Effect) : Staged (a ++ b) d := by
  obtain ⟨pre, s, post, rfl⟩ := h
  exact ⟨pre, s, post ++ b, by simp⟩

theorem Staged.append_right {b : List Effect} {d : String} (h : Staged b d)
    (a : List Effect) : Staged (a ++ b) d := by
  obtain ⟨pre, s, post, rfl⟩ := h
  exact ⟨a ++ pre, s, post, by simp⟩

theorem Staged.cons {tr : List Effect} {d : String} (h : Staged tr d)
    (e : Effect) : Staged (e :: tr) d :=
  h.append_right [e]

theorem staged_cmap_of_mem {f : α → List Effect} {l : List α} {x : α} {d : String}
    (hx : x ∈ l) (h : Staged (f x) d) : Staged (cmap f l) d := by
  induction l with
  | nil => cases hx
  | cons y ys ih =>
    rcases List.mem_cons.1 hx with rfl | hx
    · exact (h.append_left _)
    · exact ((ih hx).append_right _)

theorem mem_cmap {f : α → List Effect} {l : List α} {e : Effect}
    (h : e ∈ cmap f l) : ∃ x ∈ l, e ∈ f x := by
  induction l with
  | nil => cases h
  | cons y ys ih =>
    rcases List.mem_append.1 h with h | h
    · exact ⟨y, List.mem_cons_self .., h⟩
    · obtain ⟨x, hx, hfx⟩ := ih h
      exact ⟨x, List.mem_cons_of_mem _ hx, hfx⟩

/-- Every copy performed by the recursive-copy loop is part of a full
unlink-copy-chmod staging pattern for its destination. -/
theorem copy_tree_staged (fs : String → List String) (src root : String)
    {s d : String} (h : Effect.copy s d ∈ copy_tree fs src root) :
    Staged (copy_tree fs src root) d := by
  obtain ⟨rel, hrel, hmem⟩ := mem_cmap h
  refine staged_cmap_of_mem hrel ?_
  simp only [stage_file, List.mem_cons, List.not_mem_nil] at hmem
  rcases hmem with h | h | h | h | h
  · cases h
  · cases h
  · obtain ⟨rfl, rfl⟩ := Effect.copy.inj h
    exact (staged_stage_file _ _).cons _
  · cases h
  · cases h

/-! ## The merged option order is a strict total order

These lemmas establish that `pairLT` (Python's `<` on `(name, value)`
tuples) is irreflexive, asymmetric, transitive and connex, so `pairOrder`
is a total transitive order and the insertion sort's output is sorted. -/

theorem chLT_irrefl (a : Char) : chLT a a = false := by
  simp [chLT]

theorem chLT_asymm {a b : Char} (h : chLT a b = true) : chLT b a = false := by
  simp [chLT] at h ⊢
  omega

theorem chLT_trans {a b c : Char} (h1 : chLT a b = true) (h2 : chLT b c = true) :
    chLT a c = true := by
  simp [chLT] at h1 h2 ⊢
  omega

theorem chLT_eq_of_both_false {a b : Char} (h1 : chLT a b = false)
    (h2 : chLT b a = false) : a = b := by
  simp [chLT] at h1 h2
  have h3 : a.toNat = b.toNat := by omega
  exact Char.eq_of_val_eq (UInt32.ext h3)

theorem strDataLT_irrefl : ∀ l : List Char, strDataLT l l = false
  | [] => rfl
  | a :: as => by simp [strDataLT, chLT_irrefl, strDataLT_irrefl as]

theorem strDataLT_asymm : ∀ {l m : List Char},
    strDataLT l m = true → strDataLT m l = false
  | [], [], h => by cases h
  | [], _ :: _, _ => rfl
  | _ :: _, [], h => by cases h
  | a :: as, b :: bs, h => by
    simp only [strDataLT, Bool.or_eq_true, Bool.and_eq_true, beq_iff_eq] at h
    rcases h with h | ⟨rfl, hrec⟩
    · have h1 := chLT_asymm h
      have h2 : (b == a) = false := by
        by_cases e : b = a
        · subst e
          rw [chLT_irrefl] at h
          cases h
        · simp [e]
      simp [strDataLT, h1, h2]
    · simp [strDataLT, chLT_irrefl, strDataLT_asymm hrec]

theorem strDataLT_trans : ∀ {l m n : List Char},
    strDataLT l m = true → strDataLT m n = true → strDataLT l n = true
  | [], [], _, h1, _ => by cases h1
  | [], _ :: _, [], _, h2 => by cases h2
  | [], _ :: _, _ :: _, _, _ => rfl
  | _ :: _, [], _, h1, _ => by cases h1
  | _ :: _, _ :: _, [], _, h2 => by cases h2
  | a :: as, b :: bs, c :: cs, h1, h2 => by
    simp only [strDataLT, Bool.or_eq_true, Bool.and_eq_true, beq_iff_eq] at h1 h2 ⊢
    rcases h1 with h1 | ⟨rfl, r1⟩
    · rcases h2 with h2 | ⟨rfl, r2⟩
      · exact Or.inl (chLT_trans h1 h2)
      · exact Or.inl h1
    · rcases h2 with h2 | ⟨rfl, r2⟩
      · exact Or.inl h2
      · exact Or.inr ⟨rfl, strDataLT_trans r1 r2⟩

theorem strDataLT_eq_of_both_false : ∀ {l m : List Char},
    strDataLT l m = false → strDataLT m l = false → l = m
  | [], [], _, _ => rfl
  | [], _ :: _, h1, _ => by cases h1
  | _ :: _, [], _, h2 => by cases h2
  | a :: as, b :: bs, h1, h2 => by
    simp only [strDataLT, Bool.or_eq_false_iff] at h1 h2
    obtain ⟨hc1, hr1⟩ := h1
    obtain ⟨hc2, hr2⟩ := h2
    obtain rfl : a = b := chLT_eq_of_both_false hc1 hc2
    simp only [beq_self_eq_true, Bool.true_and] at hr1 hr2
    rw [strDataLT_eq_of_both_false hr1 hr2]

theorem kvalLT_irrefl : ∀ v : KVal, kvalLT v v = false
  | .b x => by cases x <;> decide
  | .s x => strDataLT_irrefl x.data

theorem kvalLT_asymm : ∀ {v w : KVal}, kvalLT v w = true → kvalLT w v = false
  | .b x, .b y, h => by revert h; cases x <;> cases y <;> decide
  | .b _, .s _, _ => rfl
  | .s _, .b _, h => by cases h
  | .s _, .s _, h => strDataLT_asymm h

theorem kvalLT_trans : ∀ {u v w : KVal},
    kvalLT u v = true → kvalLT v w = true → kvalLT u w = true
  | .b x, .b y, .b z, h1, h2 => by revert h1 h2; cases x <;> cases y <;> cases z <;> decide
  | .b _, .b _, .s _, _, _ => rfl
  | .b _, .s _, .s _, _, _ => rfl
  | .b _, .s _, .b _, _, h2 => by cases h2
  | .s _, .b _, _, h1, _ => by cases h1
  | .s _, .s _, .b _, _, h2 => by cases h2
  | .s _, .s _, .s _, h1, h2 => strDataLT_trans h1 h2

theorem kvalLT_eq_of_both_false : ∀ {v w : KVal},
    kvalLT v w = false → kvalLT w v = false → v = w
  | .b x, .b y, h1, h2 => by revert h1 h2; cases x <;> cases y <;> decide
  | .b _, .s _, h1, _ => by cases h1
  | .s _, .b _, _, h2 => by cases h2
  | .s x, .s y, h1, h2 =>
    congrArg KVal.s (String.ext (strDataLT_eq_of_both_false h1 h2))

theorem pairLT_asymm {p q : String × KVal} (h : pairLT p q = true) :
    pairLT q p = false := by
  obtain ⟨k1, v1⟩ := p
  obtain ⟨k2, v2⟩ := q
  simp only [pairLT, Bool.or_eq_true, Bool.and_eq_true, beq_iff_eq] at h
  rcases h with h | ⟨rfl, hv⟩
  · have h1 : strDataLT k2.data k1.data = false := strDataLT_asymm h
    have h2 : (k2 == k1) = false := by
      by_cases e : k2 = k1
      · subst e
        have := strDataLT_irrefl k2.data
        rw [show pyStrLT k2 k2 = strDataLT k2.data k2.data from rfl, this] at h
        cases h
      · simp [e]
    simp [pairLT, pyStrLT, h1, h2]
  · simp [pairLT, pyStrLT, strDataLT_irrefl, kvalLT_asymm hv]

theorem pairLT_trans {p q r : String × KVal} (h1 : pairLT p q = true)
    (h2 : pairLT q r = true) : pairLT p r = true := by
  obtain ⟨k1, v1⟩ := p
  obtain ⟨k2, v2⟩ := q
  obtain ⟨k3, v3⟩ := r
  simp only [pairLT, Bool.or_eq_true, Bool.and_eq_true, beq_iff_eq, pyStrLT] at h1 h2 ⊢
  rcases h1 with h1 | ⟨rfl, hv1⟩
  · rcases h2 with h2 | ⟨rfl, hv2⟩
    · exact Or.inl (strDataLT_trans h1 h2)
    · exact Or.inl h1
  · rcases h2 with h2 | ⟨rfl, hv2⟩
    · exact Or.inl h2
    · exact Or.inr ⟨rfl, kvalLT_trans hv1 hv2⟩

theorem pairLT_eq_of_both_false {p q : String × KVal} (h1 : pairLT p q = false)
    (h2 : pairLT q p = false) : p = q := by
  obtain ⟨k1, v1⟩ := p
  obtain ⟨k2, v2⟩ := q
  simp only [pairLT, Bool.or_eq_false_iff, pyStrLT] at h1 h2
  obtain ⟨hk1, hr1⟩ := h1
  obtain ⟨hk2, hr2⟩ := h2
  obtain rfl : k1 = k2 := String.ext (strDataLT_eq_of_both_false hk1 hk2)
  simp only [beq_self_eq_true, Bool.true_and] at hr1 hr2
  rw [kvalLT_eq_of_both_false hr1 hr2]

instance : IsTotal (String × KVal) pairOrder where
  total p q := by
    by_cases h : pairLT q p = true
    · exact Or.inr (pairLT_asymm h)
    · simp only [Bool.not_eq_true] at h
      exact Or.inl h

instance : IsTrans (String × KVal) pairOrder where
  trans p q r hpq hqr := by
    have hpq : pairLT q p = false := hpq
    have hqr : pairLT r q = false := hqr
    show pairLT r p = false
    by_cases h : pairLT r p = true
    · exfalso
      by_cases h2 : pairLT p q = true
      · rw [pairLT_trans h h2] at hqr
        cases hqr
      · simp only [Bool.not_eq_true] at h2
        obtain rfl : p = q := pairLT_eq_of_both_false h2 hpq
        rw [h] at hqr
        cases hqr
    · simp only [Bool.not_eq_true] at h
      exact h

theorem orderedInsert_congr {r1 r2 : α → α → Prop} [DecidableRel r1]
    [DecidableRel r2] (a : α) :
    ∀ m : List α, (∀ b ∈ m, r1 a b ↔ r2 a b) →
      List.orderedInsert r1 a m = List.orderedInsert r2 a m
  | [], _ => rfl
  | b :: m, h => by
    simp only [List.orderedInsert]
    by_cases hb : r1 a b
    · rw [if_pos hb, if_pos ((h b (List.mem_cons_self ..)).1 hb)]
    · rw [if_neg hb, if_neg (fun hc => hb ((h b (List.mem_cons_self ..)).2 hc)),
        orderedInsert_congr a m (fun c hc => h c (List.mem_cons_of_mem _ hc))]

theorem insertionSort_congr {r1 r2 : α → α → Prop} [DecidableRel r1]
    [DecidableRel r2] :
    ∀ l : List α, (∀ a ∈ l, ∀ b ∈ l, r1 a b ↔ r2 a b) →
      List.insertionSort r1 l = List.insertionSort r2 l
  | [], _ => rfl
  | a :: l, h => by
    simp only [List.insertionSort]
    rw [insertionSort_congr l
      (fun x hx y hy => h x (List.mem_cons_of_mem _ hx) y (List.mem_cons_of_mem _ hy))]
    exact orderedInsert_congr a _ (fun b hb => h a (List.mem_cons_self ..) b
      (List.mem_cons_of_mem _ ((List.perm_insertionSort r2 l).mem_iff.1 hb)))

/-- Under `type_safe_args`, the sorted merge does not depend on how the
model totalises the cross-type value comparison: any value order that agrees
with `kvalLT` on same-typed values sorts the merged list identically,
because the sort compares the values of two pairs only when the pairs share
a name, and shared names carry same-typed values on this domain. -/
theorem sorted_config_args_totalisation_independent
    (board : BoardInfo) (config : ConfigInfo) (vlt : KVal → KVal → Bool)
    (hsafe : type_safe_args (config_args board config))
    (hagree : ∀ v w, sameKind v w = true → vlt v w = kvalLT v w) :
    List.insertionSort (pairOrderWith vlt) (config_args board config) =
      sorted_config_args board config := by
  refine insertionSort_congr _ (fun p hp q hq => ?_)
  by_cases hk : q.1 = p.1
  · have hv := hagree q.2 p.2 (hsafe q hq p hp hk)
    simp [pairOrderWith, pairOrder, pairLTWith, pairLT, hv]
  · have hb : (q.1 == p.1) = false := by simp [hk]
    simp [pairOrderWith, pairOrder, pairLTWith, pairLT, hb]

/-! ## The claims -/

set_option maxRecDepth 1000000

/-- C1: the claim says a full successful run of `main` emits a full-SDK
archive and a source-snapshot archive at paths named deterministically from
product name and version.  In the source, `main` computes exactly those two
deterministic paths (`tar_file`, `source_tar_file`) but never opens or writes
any archive: a complete happy-path run finishes without error and its effect
trace contains no archive-creation effect, while the two computed names are
the deterministic ones. -/
theorem C1_no_archive_emitted :
    happyRun.2 = none ∧
    happyRun.1.all (fun e => match e with
      | .createArchive _ => false
      | _ => true) = true ∧
    tar_file = "release/microkit-sdk-1.2.6.tar.gz" ∧
    source_tar_file = "release/microkit-source-1.2.6.tar.gz" := by
  refine ⟨by decide, by decide, by decide, by decide⟩

/-- C2 (counterexample): for a board and a config sharing the option key `K`
(board value `"a"`, config value `"b"`), the merged option list passed to the
kernel configure command holds two entries for `K`, not one, and the board's
colliding value does appear in the rendered flag list. -/
theorem C2_counterexample :
    (sorted_config_args board0 config0).countP (fun p => p.1 == "K") ≠ 1 ∧
    "-DK=a" ∈ config_strs board0 config0 := by
  refine ⟨by decide, by decide⟩

/-- C2 (amended): when board and config option maps share a key and every
shared key carries same-typed values (`type_safe_args` — the only case in
which Python's `sorted` returns at all: with mixed types `build_sel4`
crashes with a `TypeError` inside `sorted` before any command runs), the
merged option list keeps one entry per occurrence in each map — both the
board's and the config's pairs are present, the number of entries for the
shared key is the sum of the counts from the two maps (so the config's value
does not replace the board's: the merge is concatenation followed by
sorting), and the whole list is ordered lexicographically by (name, value)
(`List.Sorted pairOrder`: no earlier entry is strictly greater than a later
one under Python's tuple order). -/
theorem C2_merge_keeps_both_entries :
    ∀ (board : BoardInfo) (config : ConfigInfo) (k : String) (vb vc : KVal),
    type_safe_args (config_args board config) →
    (k, vb) ∈ board.kernel_options → (k, vc) ∈ config.kernel_options →
    (k, vb) ∈ sorted_config_args board config ∧
    (k, vc) ∈ sorted_config_args board config ∧
    (sorted_config_args board config).countP (fun p => p.1 == k) =
      board.kernel_options.countP (fun p => p.1 == k) +
        config.kernel_options.countP (fun p => p.1 == k) ∧
    List.Sorted pairOrder (sorted_config_args board config) := by
  intro board config k vb vc hsafe hb hc
  have perm := List.perm_insertionSort pairOrder (config_args board config)
  refine ⟨?_, ?_, ?_, ?_⟩
  · exact perm.mem_iff.2 (List.mem_append.2 (Or.inl hb))
  · exact perm.mem_iff.2 (List.mem_append.2 (Or.inr hc))
  · simpa [sorted_config_args, config_args, List.countP_append] using
      perm.countP_eq (fun p => p.1 == k)
  · exact List.sorted_insertionSort pairOrder (config_args board config)

/-- C2 (witness): the amended statement at the concrete colliding pair
(both values strings, so the type-safety hypothesis holds): both
`("K", "a")` and `("K", "b")` are in the merged list, the key `K` has
`1 + 1` entries, and the list is sorted. -/
theorem C2_merge_keeps_both_entries_witness :
    ("K", KVal.s "a") ∈ sorted_config_args board0 config0 ∧
    ("K", KVal.s "b") ∈ sorted_config_args board0 config0 ∧
    (sorted_config_args board0 config0).countP (fun p => p.1 == "K") =
      board0.kernel_options.countP (fun p => p.1 == "K") +
        config0.kernel_options.countP (fun p => p.1 == "K") ∧
    List.Sorted pairOrder (sorted_config_args board0 config0) :=
  C2_merge_keeps_both_entries board0 config0 "K" (.s "a") (.s "b")
    (by decide) (by decide) (by decide)

/-- C3: for a regular-file or directory entry, `tar_filter` is insensitive to
the entry's original uid/gid, owner/group names, pax headers and mtime, and
the normalised entry it returns carries uid 0, gid 0, uname and gname
`"microkit"`, empty pax headers and the constant `MICROKIT_EPOCH` mtime. -/
theorem C3_tar_filter_deterministic :
    ∀ (t : TarEntry) (u g : Nat) (un gn : String)
      (pax : List (String × String)) (mt : Nat),
    (t.isfile || t.isdir) = true →
    tar_filter { t with
      uid := u, gid := g, uname := un, gname := gn,
      pax_headers := pax, mtime := mt } = tar_filter t ∧
    ∃ out, tar_filter t = some out ∧ out.uid = 0 ∧ out.gid = 0 ∧
      out.uname = "microkit" ∧ out.gname = "microkit" ∧
      out.pax_headers = [] ∧ out.mtime = MICROKIT_EPOCH := by
  intro t u g un gn pax mt h
  obtain ⟨name, tf, mode, uid, gid, uname, gname, paxh, mtime, size⟩ := t
  refine ⟨rfl, ?_⟩
  cases tf
  case reg =>
    by_cases hb : containsSub "/bin/" name = true
    · exact ⟨⟨name, .reg, permClearSet mode 0o755, 0, 0, "microkit", "microkit",
        [], MICROKIT_EPOCH, size⟩,
        by simp [tar_filter, TarEntry.isfile, TarEntry.isdir, hb],
        rfl, rfl, rfl, rfl, rfl, rfl⟩
    · exact ⟨⟨name, .reg, permClearSet mode 0o644, 0, 0, "microkit", "microkit",
        [], MICROKIT_EPOCH, size⟩,
        by simp [tar_filter, TarEntry.isfile, TarEntry.isdir, hb],
        rfl, rfl, rfl, rfl, rfl, rfl⟩
  case dir =>
    exact ⟨⟨name, .dir, permClearSet mode 0o557, 0, 0, "microkit", "microkit",
      [], MICROKIT_EPOCH, size⟩,
      by simp [tar_filter, TarEntry.isfile, TarEntry.isdir],
      rfl, rfl, rfl, rfl, rfl, rfl⟩
  all_goals simp [TarEntry.isfile, TarEntry.isdir] at h

/-- C3 (witness): the normalisation-insensitivity statement evaluated at a
concrete regular-file entry with scrambled ownership metadata. -/
theorem C3_tar_filter_deterministic_witness :
    tar_filter { name := "sdk/bin/microkit", typeflag := .reg, mode := 0o7664,
                 uid := 7, gid := 8, uname := "alice", gname := "staff",
                 pax_headers := [("c", "d")], mtime := 42, size := 10 } =
      tar_filter { name := "sdk/bin/microkit", typeflag := .reg, mode := 0o7664,
                   uid := 5, gid := 6, uname := "bob", gname := "wheel",
                   pax_headers := [("a", "b")], mtime := 99, size := 10 } ∧
    ∃ out,
      tar_filter { name := "sdk/bin/microkit", typeflag := .reg, mode := 0o7664,
                   uid := 5, gid := 6, uname := "bob", gname := "wheel",
                   pax_headers := [("a", "b")], mtime := 99, size := 10 } = some out ∧
      out.uid = 0 ∧ out.gid = 0 ∧ out.uname = "microkit" ∧ out.gname = "microkit" ∧
      out.pax_headers = [] ∧ out.mtime = MICROKIT_EPOCH :=
  C3_tar_filter_deterministic
    { name := "sdk/bin/microkit", typeflag := .reg, mode := 0o7664,
      uid := 5, gid := 6, uname := "bob", gname := "wheel",
      pax_headers := [("a", "b")], mtime := 99, size := 10 }
    7 8 "alice" "staff" [("c", "d")] 42 (by decide)

/-- C4: merging the board options KernelPlatform = zcu102, KernelIsMCS = true
with the config options KernelDebugBuild = true and rendering yields exactly
the sorted flag string, with booleans rendered ON/OFF and strings verbatim. -/
theorem C4_option_merge_rendering :
    config_str boardC4 configC4 =
      "-DKernelDebugBuild=ON -DKernelIsMCS=ON -DKernelPlatform=zcu102" ∧
    renderVal (.b true) = "ON" ∧ renderVal (.b false) = "OFF" ∧
    ∀ v : String, renderVal (.s v) = v :=
  ⟨by decide, rfl, rfl, fun _ => rfl⟩

theorem mem_andThen_left {e : Effect} (a : Res) (k : Unit → Res) (h : e ∈ a.1) :
    e ∈ (andThen a k).1 := by
  obtain ⟨tr, err⟩ := a
  cases err with
  | none => exact List.mem_append_left _ h
  | some m => exact h

/-- The `run` effect of the component command is in the trace of
`build_elf_component` whether the command succeeds or fails. -/
theorem run_mem_elf_trace (sys : String → Int) (comp rootd build : String)
    (board : BoardInfo) (config : ConfigInfo) (defines : List (String × String)) :
    Effect.run (elf_cmd comp rootd build board config defines) ∈
      (build_elf_component sys comp rootd build board config defines).1 := by
  simp only [build_elf_component]
  split <;> simp

/-- C5 (counterexample): the library build invocation for a concrete board
and config does not receive a `BOARD` environment variable: the command
string contains no `BOARD=` assignment, and the assignment list it is
rendered from has no entry with key `BOARD`. -/
theorem C5_counterexample :
    containsSub "BOARD=" (lib_cmd "libmicrokit" root_dir "build" board0 config0) = false ∧
    (lib_env root_dir "build" board0 config0 "libmicrokit").all
      (fun kv => !(kv.1 == "BOARD")) = true := by
  refine ⟨by decide, by decide⟩

/-- C5 (amended): the loader and monitor build invocations receive the
environment variables BOARD, BUILD_DIR, GCC_CPU and SEL4_SDK (with the
board name, the stage-local build directory, the board's CPU variant and
the cell's kernel-SDK subtree), and their command is the rendering of those
assignments followed by the stage defines; the library invocation receives
BUILD_DIR, GCC_CPU and SEL4_SDK but no BOARD variable; the loader's extra
defines are exactly LINK_ADDRESS set to the hexadecimal link address, the
monitor is invoked with no extra defines. -/
theorem C5_component_env_contract :
    ∀ (rootd build : String) (board : BoardInfo) (config : ConfigInfo)
      (comp : String) (defines : List (String × String)),
    ("BOARD", board.name) ∈ elf_env rootd build board config comp ∧
    ("BUILD_DIR", comp_build_dir build board config comp) ∈
      elf_env rootd build board config comp ∧
    ("GCC_CPU", board.gcc_cpu) ∈ elf_env rootd build board config comp ∧
    ("SEL4_SDK", cell_dir rootd board config) ∈ elf_env rootd build board config comp ∧
    elf_cmd comp rootd build board config defines =
      renderAssigns (elf_env rootd build board config comp) ++ " " ++
        renderAssigns defines ++ " make  -C " ++ comp ∧
    (∀ v, ("BOARD", v) ∉ lib_env rootd build board config comp) ∧
    ("BUILD_DIR", comp_build_dir build board config comp) ∈
      lib_env rootd build board config comp ∧
    ("GCC_CPU", board.gcc_cpu) ∈ lib_env rootd build board config comp ∧
    ("SEL4_SDK", cell_dir rootd board config) ∈ lib_env rootd build board config comp ∧
    lib_cmd comp rootd build board config =
      renderAssigns (lib_env rootd build board config comp) ++ " make -C " ++ comp ∧
    loader_defines board = [("LINK_ADDRESS", hexStr board.loader_link_address)] ∧
    ∀ (sys : String → Int) (fs : String → List String) (sel4_dir : String),
      (build_sel4 sys fs sel4_dir rootd build board config).2 = none →
      (build_elf_component sys "loader" rootd build board config
        (loader_defines board)).2 = none →
      Effect.run (elf_cmd "monitor" rootd build board config []) ∈
        (run_cell sys fs sel4_dir rootd build board config).1 := by
  intro rootd build board config comp defines
  refine ⟨by simp [elf_env], by simp [elf_env], by simp [elf_env], by simp [elf_env],
    rfl, ?_, by simp [lib_env], by simp [lib_env], by simp [lib_env], rfl, rfl, ?_⟩
  · intro v
    simp [lib_env]
  · intro sys fs sel4_dir h1 h2
    show Effect.run _ ∈ (andThen _ _).1
    rw [andThen_fst_of_none _ _ h1]
    refine List.mem_append_right _ ?_
    rw [andThen_fst_of_none _ _ h2]
    refine List.mem_append_right _ ?_
    exact mem_andThen_left _ _ (run_mem_elf_trace sys "monitor" rootd build board config [])

/-- C5 (witness): the amended statement's monitor conjunct at a concrete
cell with every command succeeding: the monitor is invoked with no extra
defines inside the cell's trace. -/
theorem C5_component_env_contract_witness :
    Effect.run (elf_cmd "monitor" root_dir "build" board0 config0 []) ∈
      (run_cell sysOK fsE "sel4src" root_dir "build" board0 config0).1 :=
  (C5_component_env_contract root_dir "build" board0 config0 "libmicrokit"
    []).2.2.2.2.2.2.2.2.2.2.2 sysOK fsE "sel4src" (by decide) (by decide)

/-- C6: fail-fast.  For each stage (kernel configure, kernel build, kernel
install, loader/monitor, library), a non-zero exit status makes the stage
raise with no copy into the release tree anywhere in its trace; a raised
stage stops the sequel: `andThen` drops the continuation, a failed kernel
stage ends its cell, a failed cell ends the config loop, and a failed board
ends the board loop. -/
theorem C6_fail_fast :
    ∀ (sys : String → Int) (fs : String → List String)
      (sel4_dir rootd build : String) (board : BoardInfo) (config : ConfigInfo)
      (comp : String) (defines : List (String × String))
      (cs : List ConfigInfo) (bs : List BoardInfo),
    (sys (sel4_configure_cmd sel4_dir build board config) ≠ 0 →
      (build_sel4 sys fs sel4_dir rootd build board config).2.isSome ∧
      noCopy (build_sel4 sys fs sel4_dir rootd build board config).1) ∧
    (sys (sel4_configure_cmd sel4_dir build board config) = 0 →
     sys (sel4_build_cmd build board config) ≠ 0 →
      (build_sel4 sys fs sel4_dir rootd build board config).2.isSome ∧
      noCopy (build_sel4 sys fs sel4_dir rootd build board config).1) ∧
    (sys (sel4_configure_cmd sel4_dir build board config) = 0 →
     sys (sel4_build_cmd build board config) = 0 →
     sys (sel4_install_cmd build board config) ≠ 0 →
      (build_sel4 sys fs sel4_dir rootd build board config).2.isSome ∧
      noCopy (build_sel4 sys fs sel4_dir rootd build board config).1) ∧
    (sys (elf_cmd comp rootd build board config defines) ≠ 0 →
      (build_elf_component sys comp rootd build board config defines).2.isSome ∧
      noCopy (build_elf_component sys comp rootd build board config defines).1) ∧
    (sys (lib_cmd comp rootd build board config) ≠ 0 →
      (build_lib_component sys fs comp rootd build board config).2.isSome ∧
      noCopy (build_lib_component sys fs comp rootd build board config).1) ∧
    (∀ (a : Res) (k : Unit → Res), a.2.isSome → andThen a k = a) ∧
    ((build_sel4 sys fs sel4_dir rootd build board config).2.isSome →
      run_cell sys fs sel4_dir rootd build board config =
        build_sel4 sys fs sel4_dir rootd build board config) ∧
    ((run_cell sys fs sel4_dir rootd build board config).2.isSome →
      run_configs sys fs sel4_dir rootd build board (config :: cs) =
        run_cell sys fs sel4_dir rootd build board config) ∧
    ((run_configs sys fs sel4_dir rootd build board SUPPORTED_CONFIGS).2.isSome →
      run_boards sys fs sel4_dir rootd build (board :: bs) =
        run_configs sys fs sel4_dir rootd build board SUPPORTED_CONFIGS) := by
  intro sys fs sel4_dir rootd build board config comp defines cs bs
  refine ⟨?_, ?_, ?_, ?_, ?_, andThen_of_isSome, ?_, ?_, ?_⟩
  · intro h
    constructor
    · simp [build_sel4, h]
    · intro s d
      simp [build_sel4, h]
  · intro h1 h
    constructor
    · simp [build_sel4, h1, h]
    · intro s d
      simp [build_sel4, h1, h]
  · intro h1 h2 h
    constructor
    · simp [build_sel4, h1, h2, h]
    · intro s d
      simp [build_sel4, h1, h2, h]
  · intro h
    constructor
    · simp [build_elf_component, h]
    · intro s d
      simp [build_elf_component, h]
  · intro h
    constructor
    · simp [build_lib_component, h]
    · intro s d
      simp [build_lib_component, h]
  · intro h
    exact andThen_of_isSome _ _ h
  · intro h
    show andThen _ _ = _
    exact andThen_of_isSome _ _ h
  · intro h
    show andThen (andThen _ _) _ = _
    rw [andThen_of_isSome _ _ h, andThen_of_isSome _ _ h]

/-- C6 (witness): the fail-fast statement at a concrete cell where the
kernel configure command fails: `build_sel4` raises, and no copy effect
appears in its trace. -/
theorem C6_fail_fast_witness :
    (build_sel4 sysBad fsE "sel4src" root_dir "build" board0 config0).2.isSome ∧
    noCopy (build_sel4 sysBad fsE "sel4src" root_dir "build" board0 config0).1 :=
  (C6_fail_fast sysBad fsE "sel4src" root_dir "build" board0 config0 "loader" []
    [] []).1 (by decide)

theorem copy_mem_stage_file {s d a b : String}
    (h : Effect.copy s d ∈ stage_file a b) : s = a ∧ d = b := by
  simpa [stage_file] using h

/-- Copies inside a `cmap` of `copy_tree`s (the header-source loop of
`build_sel4`, the example loop of `main`) are staged by the full pattern. -/
theorem copy_cmap_copy_tree_staged {fs : String → List String}
    {g : α → String × String} {l : List α} {s d : String}
    (h : Effect.copy s d ∈ cmap (fun x => copy_tree fs (g x).1 (g x).2) l) :
    Staged (cmap (fun x => copy_tree fs (g x).1 (g x).2) l) d := by
  obtain ⟨x, hx, hmem⟩ := mem_cmap h
  exact staged_cmap_of_mem hx (copy_tree_staged fs (g x).1 (g x).2 hmem)

/-- C7 (counterexample): the top-level license file is a counterexample to
"every staged file is placed by unlink, copy, chmod 0o444": on a complete
happy-path run, `LICENSE.md` is copied into the release tree with no prior
removal and no read-only chmod of either the copy destination or the
resulting file path anywhere in the whole trace. -/
theorem C7_counterexample :
    Effect.copy "LICENSE.md" root_dir ∈ happyRun.1 ∧
    happyRun.1.all (fun e => match e with
      | .chmod p _ => !(p == root_dir || p == root_dir ++ "/LICENSE.md")
      | .unlink p => !(p == root_dir || p == root_dir ++ "/LICENSE.md")
      | _ => true) = true := by
  refine ⟨by decide, by decide⟩

/-- C7 (amended): every file staged into the release tree by the build
stages — kernel image, loader image, monitor image, library archive, linker
script, every header file, the `LICENSES/` tree files and example-project
files — is placed by unlink (no error if absent), then copy, then a final
chmod to read-only 0o444, and on success the fixed artifacts are staged at
their deterministic release-tree paths; the one exception, forced by the
counterexample, is the top-level `LICENSE.md`, which `main` copies bare. -/
theorem C7_staging_discipline :
    ∀ (sys : String → Int) (fs : String → List String)
      (sel4_dir rootd build : String) (board : BoardInfo) (config : ConfigInfo)
      (comp : String) (defines : List (String × String)),
    (sys (sel4_configure_cmd sel4_dir build board config) = 0 →
     sys (sel4_build_cmd build board config) = 0 →
     sys (sel4_install_cmd build board config) = 0 →
      (∀ s d, Effect.copy s d ∈ (build_sel4 sys fs sel4_dir rootd build board config).1 →
        Staged (build_sel4 sys fs sel4_dir rootd build board config).1 d) ∧
      Staged (build_sel4 sys fs sel4_dir rootd build board config).1
        (cell_dir rootd board config ++ "/elf/sel4.elf")) ∧
    (sys (elf_cmd comp rootd build board config defines) = 0 →
      (∀ s d,
        Effect.copy s d ∈ (build_elf_component sys comp rootd build board config defines).1 →
        Staged (build_elf_component sys comp rootd build board config defines).1 d) ∧
      Staged (build_elf_component sys comp rootd build board config defines).1
        (cell_dir rootd board config ++ "/elf/" ++ comp ++ ".elf")) ∧
    (sys (lib_cmd comp rootd build board config) = 0 →
      (∀ s d,
        Effect.copy s d ∈ (build_lib_component sys fs comp rootd build board config).1 →
        Staged (build_lib_component sys fs comp rootd build board config).1 d) ∧
      Staged (build_lib_component sys fs comp rootd build board config).1
        (cell_dir rootd board config ++ "/lib" ++ "/" ++ comp ++ ".a") ∧
      Staged (build_lib_component sys fs comp rootd build board config).1
        (cell_dir rootd board config ++ "/lib" ++ "/microkit.ld")) ∧
    (∀ s d, Effect.copy s d ∈ copy_examples fs rootd board →
      Staged (copy_examples fs rootd board) d) ∧
    (∀ src droot s d, Effect.copy s d ∈ copy_tree fs src droot →
      Staged (copy_tree fs src droot) d) := by
  intro sys fs sel4_dir rootd build board config comp defines
  refine ⟨?_, ?_, ?_, ?_, ?_⟩
  · intro h1 h2 h3
    constructor
    · intro s d hc
      simp only [build_sel4, h1, h2, h3] at hc ⊢
      simp only [ne_eq, not_true_eq_false, if_false, List.cons_append,
        List.nil_append, List.mem_cons, List.mem_append] at hc ⊢
      rcases hc with h | h | h | h | h | h | hc
      iterate 6 cases h
      rcases hc with hc | hc
      · obtain ⟨rfl, rfl⟩ := copy_mem_stage_file hc
        exact ((staged_stage_file _ _).append_left _).cons _ |>.cons _ |>.cons _
          |>.cons _ |>.cons _ |>.cons _
      · exact ((copy_cmap_copy_tree_staged
          (g := fun src => ((comp_build_dir build board config "sel4" ++ "/install")
            ++ "/" ++ src ++ "/include",
            cell_dir rootd board config ++ "/include")) hc).append_right _).cons _
          |>.cons _ |>.cons _ |>.cons _ |>.cons _ |>.cons _
    · simp only [build_sel4, h1, h2, h3]
      simp only [ne_eq, not_true_eq_false, if_false, List.cons_append, List.nil_append]
      exact ((staged_stage_file _ _).append_left _).cons _ |>.cons _ |>.cons _
        |>.cons _ |>.cons _ |>.cons _
  · intro h
    constructor
    · intro s d hc
      simp only [build_elf_component, h] at hc ⊢
      simp only [ne_eq, not_true_eq_false, if_false, List.cons_append,
        List.nil_append, List.mem_cons] at hc ⊢
      rcases hc with hc | hc | hc
      iterate 2 cases hc
      obtain ⟨rfl, rfl⟩ := copy_mem_stage_file hc
      exact (staged_stage_file _ _).cons _ |>.cons _
    · simp only [build_elf_component, h]
      simp only [ne_eq, not_true_eq_false, if_false, List.cons_append, List.nil_append]
      exact (staged_stage_file _ _).cons _ |>.cons _
  · intro h
    constructor
    · intro s d hc
      simp only [build_lib_component, h] at hc ⊢
      simp only [ne_eq, not_true_eq_false, if_false, List.cons_append,
        List.nil_append, List.mem_cons, List.mem_append] at hc ⊢
      rcases hc with hc | hc | ((hc | hc) | hc)
      · cases hc
      · cases hc
      · obtain ⟨rfl, rfl⟩ := copy_mem_stage_file hc
        exact ((staged_stage_file _ _).append_left _).append_left _ |>.cons _ |>.cons _
      · obtain ⟨rfl, rfl⟩ := copy_mem_stage_file hc
        exact ((staged_stage_file _ _).append_right _).append_left _ |>.cons _ |>.cons _
      · exact ((copy_tree_staged fs _ _ hc).append_right _).cons _ |>.cons _
    · constructor
      · simp only [build_lib_component, h]
        simp only [ne_eq, not_true_eq_false, if_false, List.cons_append, List.nil_append]
        exact ((staged_stage_file _ _).append_left _).append_left _ |>.cons _ |>.cons _
      · simp only [build_lib_component, h]
        simp only [ne_eq, not_true_eq_false, if_false, List.cons_append, List.nil_append]
        exact ((staged_stage_file _ _).append_right _).append_left _ |>.cons _ |>.cons _
  · intro s d hc
    obtain ⟨x, hx, hmem⟩ := mem_cmap hc
    exact staged_cmap_of_mem hx (copy_tree_staged fs _ _ hmem)
  · intro src droot s d hc
    exact copy_tree_staged fs src droot hc

/-- C7 (witness): the amended discipline at a concrete successful kernel
stage: the kernel image is staged at its deterministic release-tree path by
the full unlink-copy-chmod-read-only pattern. -/
theorem C7_staging_discipline_witness :
    Staged (build_sel4 sysOK fsE "sel4src" root_dir "build" board0 config0).1
      (cell_dir root_dir board0 config0 ++ "/elf/sel4.elf") :=
  ((C7_staging_discipline sysOK fsE "sel4src" root_dir "build" board0 config0
    "loader" []).1 (by decide) (by decide) (by decide)).2

/-- C8: the tool-target-triple auto-detection returns the fixed triple for a
Linux host, the two fixed triples for Darwin on x86_64 and arm64, and fails
with an error — never a guessed or empty triple — on every other host system
and every other Darwin architecture. -/
theorem C8_tool_target_triple :
    ∀ (host_system host_machine : String),
    get_tool_target_triple "Linux" host_machine = .ok "x86_64-unknown-linux-musl" ∧
    get_tool_target_triple "Darwin" "x86_64" = .ok "x86_64-apple-darwin" ∧
    get_tool_target_triple "Darwin" "arm64" = .ok "aarch64-apple-darwin" ∧
    (host_system ≠ "Linux" → host_system ≠ "Darwin" →
      get_tool_target_triple host_system host_machine =
        .error ("The platform \"" ++ host_system ++ "\" is not supported")) ∧
    (host_machine ≠ "x86_64" → host_machine ≠ "arm64" →
      get_tool_target_triple "Darwin" host_machine =
        .error ("Unexpected Darwin architecture: " ++ host_machine)) := by
  intro hs hm
  refine ⟨rfl, rfl, rfl, ?_, ?_⟩
  · intro h1 h2
    simp [get_tool_target_triple, h1, h2]
  · intro h1 h2
    simp [get_tool_target_triple, h1, h2]

/-- C8 (witness): the detection at a Windows host and at a Darwin host on a
riscv64 machine: both are errors. -/
theorem C8_tool_target_triple_witness :
    get_tool_target_triple "Windows" "amd64" =
      .error ("The platform \"" ++ "Windows" ++ "\" is not supported") ∧
    get_tool_target_triple "Darwin" "riscv64" =
      .error ("Unexpected Darwin architecture: " ++ "riscv64") :=
  ⟨(C8_tool_target_triple "Windows" "amd64").2.2.2.1 (by decide) (by decide),
   (C8_tool_target_triple "Darwin" "riscv64").2.2.2.2 (by decide) (by decide)⟩

/-- C9: `tar_filter` returns a normalised entry exactly for regular files
and directories, and fails (a raised assertion, `none` in the model) for
every other entry kind — symlinks, hard links, devices, fifos. -/
theorem C9_tar_filter_entry_kinds :
    ∀ t : TarEntry, (tar_filter t).isSome = (t.isfile || t.isdir) := by
  intro t
  obtain ⟨name, tf, mode, uid, gid, uname, gname, paxh, mtime, size⟩ := t
  cases tf <;> simp [tar_filter, TarEntry.isfile, TarEntry.isdir]

/-- C10 (counterexample): the packaged CLI tool is not "the one staged
artifact exempt from the 0o444 discipline": on a complete happy-path run the
top-level `LICENSE.md` is also staged by copy and never made read-only (no
chmod of its destination at all). -/
theorem C10_counterexample :
    Effect.copy "LICENSE.md" root_dir ∈ happyRun.1 ∧
    happyRun.1.all (fun e => match e with
      | .chmod p m => !((p == root_dir || p == root_dir ++ "/LICENSE.md") && m == 0o444)
      | _ => true) = true := by
  refine ⟨by decide, by decide⟩

/-- C10 (amended): on a complete happy-path run the CLI tool is copied to
`bin/microkit` and chmod-ed to 0o777, and no other chmod of that path ever
occurs (in particular it is never made read-only); it is exempt from the
write-once-then-freeze 0o444 discipline, but not uniquely so: the top-level
`LICENSE.md` is likewise staged without any read-only chmod. -/
theorem C10_tool_mode :
    Effect.copy ("./tool/build/" ++ "x86_64-unknown-linux-musl" ++
      "/release/install/microkit") tool_target ∈ happyRun.1 ∧
    Effect.chmod tool_target 0o777 ∈ happyRun.1 ∧
    happyRun.1.all (fun e => match e with
      | .chmod p m => !(p == tool_target) || m == 0o777
      | _ => true) = true ∧
    Effect.copy "LICENSE.md" root_dir ∈ happyRun.1 ∧
    happyRun.1.all (fun e => match e with
      | .chmod p _ => !(p == root_dir || p == root_dir ++ "/LICENSE.md")
      | _ => true) = true := by
  refine ⟨by decide, by decide, by decide, by decide, by decide⟩

end Microkit
